import Mathlib

/-!
Verification development for the GPU demand/capacity analytics pipeline.

The definitions below are a shallow embedding of the analytical core of the
repository (src/analysis/metrics.py, src/analysis/imbalance.py,
src/analysis/aggregations.py, src/generators/validators.py).  Machine floats
are modelled by rationals; pandas Series are modelled by lists of rationals,
operated on elementwise exactly as the vectorised source code does.
-/

namespace GpuAnalytics

/-- GPU specification record: `max_power` and `achievable_tflops`,
mirroring the entries of the `GPU_SPECS` dictionary in metrics.py. -/
structure GpuSpec where
  max_power : ℚ
  achievable_tflops : ℚ
deriving DecidableEq

/-- The static `GPU_SPECS` lookup table of metrics.py (three catalogued models). -/
def GPU_SPECS (model : String) : Option GpuSpec :=
  if model = "NVIDIA A10G" then some ⟨300, 35⟩
  else if model = "NVIDIA A100-SXM4-40GB" then some ⟨400, 102⟩
  else if model = "NVIDIA H100 80GB HBM3" then some ⟨700, 646⟩
  else none

/-- Embedding of `GPU_SPECS.get(x, \x7b\x7d).get('max_power', 400)`. -/
def maxPowerFor (model : String) : ℚ :=
  match GPU_SPECS model with
  | some s => s.max_power
  | none => 400

/-- Embedding of `GPU_SPECS.get(x, \x7b\x7d).get('achievable_tflops', 100)`. -/
def achievableFor (model : String) : ℚ :=
  match GPU_SPECS model with
  | some s => s.achievable_tflops
  | none => 100

/-- Embedding of `Series.clip(lo, hi)` applied to one element. -/
def clip (lo hi x : ℚ) : ℚ := max lo (min hi x)

/-- Row-level embedding of `calculate_power_intensity_factor`:
`PIF = clip(power / max_power, 0, 1)`. -/
def calculate_power_intensity_factor (power : ℚ) (model : String) : ℚ :=
  clip 0 1 (power / maxPowerFor model)

/-- Row-level embedding of `calculate_realized_tflops`:
`achievable_tflops × PIF`. -/
def calculate_realized_tflops (model : String) (pif : ℚ) : ℚ :=
  achievableFor model * pif

/-- Row-level embedding of `calculate_rfu`:
`clip(realized / achievable × 100, 0, 100)`. -/
def calculate_rfu (model : String) (realized : ℚ) : ℚ :=
  clip 0 100 (realized / achievableFor model * 100)

/-- Row-level embedding of `calculate_efficiency_gap`: `util − rfu`. -/
def calculate_efficiency_gap (util rfu : ℚ) : ℚ := util - rfu

/-- Row-level embedding of `calculate_memory_pressure`:
`used / (used + free) × 100`, with the `fillna(0)` guard for the 0/0 case
(the only case producing NaN in the source) expressed as a zero-total guard. -/
def calculate_memory_pressure (used free : ℚ) : ℚ :=
  if used + free = 0 then 0 else used / (used + free) * 100

/-- Embedding of the inner `classify_row` of `classify_efficiency` in
metrics.py: the ordered if/elif chain on (utilization, PIF). -/
def classify_row (util pif : ℚ) : String :=
  if util < 10 then "Idle"
  else if 70 ≤ util ∧ (0.75 : ℚ) ≤ pif then "Efficient"
  else if 70 ≤ util ∧ pif < (0.60 : ℚ) then "Bottlenecked"
  else if 40 ≤ util ∧ (0.50 : ℚ) ≤ pif then "Moderate"
  else "Inefficient"

/-- Embedding of the inner `classify` of `classify_imbalance_severity` in
imbalance.py: the ordered if/elif chain on (CIS, DCR). -/
def classify_severity (cis dcr : ℚ) : String :=
  if (0.7 : ℚ) < cis ∨ (2.0 : ℚ) < dcr then "Critical"
  else if (0.5 : ℚ) < cis ∨ (1.0 : ℚ) < dcr then "Warning"
  else if (0.3 : ℚ) < cis then "Moderate"
  else "Healthy"

/-- Row-level embedding of `calculate_demand_capacity_ratio`:
`pending / (available_capacity + ε)`. -/
def calculate_demand_capacity_ratio (pending capacity epsilon : ℚ) : ℚ :=
  pending / (capacity + epsilon)

/-- Spec-side description of the efficiency decision table of §4.1:
an ordered list of (guard, label) rules evaluated first-match-wins. -/
def effRules : List ((ℚ → ℚ → Bool) × String) :=
  [ (fun u _ => u < 10, "Idle"),
    (fun u p => 70 ≤ u && (0.75 : ℚ) ≤ p, "Efficient"),
    (fun u p => 70 ≤ u && p < (0.60 : ℚ), "Bottlenecked"),
    (fun u p => 40 ≤ u && (0.50 : ℚ) ≤ p, "Moderate") ]

/-- Spec-side description of the severity rule list of §4.5. -/
def sevRules : List ((ℚ → ℚ → Bool) × String) :=
  [ (fun c d => (0.7 : ℚ) < c || (2.0 : ℚ) < d, "Critical"),
    (fun c d => (0.5 : ℚ) < c || (1.0 : ℚ) < d, "Warning"),
    (fun c _ => (0.3 : ℚ) < c, "Moderate") ]

/-- First-match-wins evaluation of an ordered rule list with a default label. -/
def firstMatch (rules : List ((ℚ → ℚ → Bool) × String)) (x y : ℚ) (dflt : String) : String :=
  match rules with
  | [] => dflt
  | (c, l) :: rest => if c x y then l else firstMatch rest x y dflt

/-- Spec-side efficiency computation for an explicitly given spec record,
used to state that uncatalogued models behave exactly as a catalogued model
with the default spec would. -/
def pifWithSpec (s : GpuSpec) (power : ℚ) : ℚ :=
  clip 0 1 (power / s.max_power)

/-- Spec-side realized-throughput computation for an explicitly given spec. -/
def realizedWithSpec (s : GpuSpec) (pif : ℚ) : ℚ :=
  s.achievable_tflops * pif

/-- Embedding of `Series.min()` (0 only for the empty series, unused there). -/
def seriesMin (s : List ℚ) : ℚ :=
  match s with
  | [] => 0
  | x :: xs => xs.foldl min x

/-- Embedding of `Series.max()` (0 only for the empty series, unused there). -/
def seriesMax (s : List ℚ) : ℚ :=
  match s with
  | [] => 0
  | x :: xs => xs.foldl max x

/-- Embedding of `range_val.replace(0, 1)` / `if range_val == 0: range_val = 1`
in `normalize_series`. -/
def replaceZeroOne (r : ℚ) : ℚ := if r = 0 then 1 else r

/-- One element of the min-max scaling `(s - min) / range` used by
`normalize_series`. -/
def normElem (s : List ℚ) (x : ℚ) : ℚ :=
  (x - seriesMin s) / replaceZeroOne (seriesMax s - seriesMin s)

/-- Global (whole-series) min-max branch of `normalize_series`. -/
def normalizeGlobal (s : List ℚ) : List ℚ :=
  s.map (normElem s)

/-- Trailing window `s[max(0, i−w+1) .. i]` used by
`rolling(window, min_periods=1)`. -/
def rollWindow (w : ℕ) (s : List ℚ) (i : ℕ) : List ℚ :=
  (s.take (i + 1)).drop (i + 1 - w)

/-- Rolling-window min-max branch of `normalize_series`. -/
def normalizeRolling (w : ℕ) (s : List ℚ) : List ℚ :=
  (List.range s.length).map (fun i =>
    (s.getD i 0 - seriesMin (rollWindow w s i)) /
      replaceZeroOne (seriesMax (rollWindow w s i) - seriesMin (rollWindow w s i)))

/-- Embedding of `Series.rank(pct=True)` (average rank of ties, divided by
the series length), the `percentile` branch of `normalize_series`. -/
def rankPct (s : List ℚ) : List ℚ :=
  s.map (fun x =>
    (((s.filter (fun y => y < x)).length : ℚ) +
      (((s.filter (fun y => y = x)).length : ℚ) + 1) / 2) / (s.length : ℚ))

/-- Python truthiness of the `window` argument (`if window:`), where `None`
and `0` both select the whole-series branch. -/
def useRolling (window : Option ℕ) : Bool :=
  match window with
  | some w => w != 0
  | none => false

/-- Embedding of `normalize_series` in metrics.py: min-max scaling (global or
rolling window) or percentile rank; an unknown method raises `ValueError`,
modelled by `Except.error`. -/
def normalize_series (s : List ℚ) (method : String) (window : Option ℕ) :
    Except String (List ℚ) :=
  if method = "minmax" then
    .ok (if useRolling window then normalizeRolling (window.getD 1) s else normalizeGlobal s)
  else if method = "percentile" then
    .ok (rankPct s)
  else
    .error ("Unknown normalization method: " ++ method)

/-- Row-level embedding of the weighted sum in `calculate_queue_pressure_score`;
the series-level function applies it elementwise to the two default
(`minmax`, whole-series) normalizations, exactly as the source does. -/
def calculate_queue_pressure_score (pending wait : List ℚ) (pw ww : ℚ) : List ℚ :=
  List.zipWith (fun np nw => pw * np + ww * nw)
    (normalizeGlobal pending) (normalizeGlobal wait)

/-- Mean of a list of rationals (`'mean'` reduction); only applied to
nonempty groups, as pandas `groupby` never emits an empty group. -/
def qmean (l : List ℚ) : ℚ := l.sum / (l.length : ℚ)

section JoinModel

variable {K : Type} [DecidableEq K]

/-- One raw Kueue record, keyed by its (time bucket, nodegroup) pair `K`;
only the columns touched by the two join stages are carried. -/
structure KueueRow (K : Type) where
  key : K
  pending_workloads : ℚ
  admission_wait_time_seconds : ℚ
  admitted_active_workloads : ℚ
  resource_usage : ℚ
  evicted_workloads_total : ℚ

/-- One raw nodepool record keyed by its (time bucket, nodegroup) pair. -/
structure NodepoolRow (K : Type) where
  key : K
  capacity_gpu_count : ℚ
  allocatable_gpu_count : ℚ

/-- One DCGM record (with efficiency metrics added) keyed by its
(time bucket, nodegroup) pair. -/
structure DcgmRow (K : Type) where
  key : K
  gpu_utilization_pct : ℚ
  power_usage_watts : ℚ
  power_intensity_factor : ℚ
  rfu_pct : ℚ
  efficiency_gap : ℚ
  memory_used_mb : ℚ
  memory_pressure_pct : ℚ
  gpu_temp_celsius : ℚ
  tensor_active_pct : ℚ

/-- Aggregated Kueue row for `build_unified_model` (sum, mean, sum, sum, max). -/
structure KueueAggU where
  pending_workloads : ℚ
  admission_wait_time_seconds : ℚ
  admitted_active_workloads : ℚ
  resource_usage : ℚ
  evicted_workloads_total : ℚ

/-- Kueue aggregation of `build_unified_model` (via `aggregate_to_hourly`):
a key groups to a row exactly when at least one raw record carries it. -/
def kueueAggUnified (rows : List (KueueRow K)) (k : K) : Option KueueAggU :=
  let g := rows.filter (fun r => r.key = k)
  if g.isEmpty then none else
    some ⟨(g.map (·.pending_workloads)).sum,
          qmean (g.map (·.admission_wait_time_seconds)),
          (g.map (·.admitted_active_workloads)).sum,
          (g.map (·.resource_usage)).sum,
          seriesMax (g.map (·.evicted_workloads_total))⟩

/-- Aggregated nodepool row (mean, mean), shared by both join stages. -/
structure NodepoolAgg where
  capacity_gpu_count : ℚ
  allocatable_gpu_count : ℚ

/-- Nodepool aggregation (mean of both GPU counts per key). -/
def nodepoolAggAt (rows : List (NodepoolRow K)) (k : K) : Option NodepoolAgg :=
  let g := rows.filter (fun r => r.key = k)
  if g.isEmpty then none else
    some ⟨qmean (g.map (·.capacity_gpu_count)), qmean (g.map (·.allocatable_gpu_count))⟩

/-- Aggregated DCGM row for `build_unified_model` (mean of eight columns;
the `'first'` fallback in the source is only selected when the column is
absent, in which case pandas cannot aggregate it at all, so the live
reduction is always `'mean'`). -/
structure DcgmAggU where
  gpu_utilization_pct : ℚ
  power_usage_watts : ℚ
  power_intensity_factor : ℚ
  rfu_pct : ℚ
  efficiency_gap : ℚ
  memory_used_mb : ℚ
  gpu_temp_celsius : ℚ
  tensor_active_pct : ℚ

/-- DCGM aggregation of `build_unified_model`. -/
def dcgmAggUnified (rows : List (DcgmRow K)) (k : K) : Option DcgmAggU :=
  let g := rows.filter (fun r => r.key = k)
  if g.isEmpty then none else
    some ⟨qmean (g.map (·.gpu_utilization_pct)),
          qmean (g.map (·.power_usage_watts)),
          qmean (g.map (·.power_intensity_factor)),
          qmean (g.map (·.rfu_pct)),
          qmean (g.map (·.efficiency_gap)),
          qmean (g.map (·.memory_used_mb)),
          qmean (g.map (·.gpu_temp_celsius)),
          qmean (g.map (·.tensor_active_pct))⟩

/-- One output row of the two outer merges in `build_unified_model`:
a column is `none` exactly when the owning source had no row for the key
(pandas NaN after an outer merge). -/
structure UnifiedRow where
  pending_workloads : Option ℚ
  admission_wait_time_seconds : Option ℚ
  admitted_active_workloads : Option ℚ
  resource_usage : Option ℚ
  evicted_workloads_total : Option ℚ
  capacity_gpu_count : Option ℚ
  allocatable_gpu_count : Option ℚ
  gpu_utilization_pct : Option ℚ
  power_usage_watts : Option ℚ
  power_intensity_factor : Option ℚ
  rfu_pct : Option ℚ
  efficiency_gap : Option ℚ
  memory_used_mb : Option ℚ
  gpu_temp_celsius : Option ℚ
  tensor_active_pct : Option ℚ
deriving DecidableEq

/-- Key set of the full outer join: every key occurring in any source. -/
def unifiedKeys (kueue : List (KueueRow K)) (nodepool : List (NodepoolRow K))
    (dcgm : List (DcgmRow K)) : List K :=
  (kueue.map (·.key) ++ nodepool.map (·.key) ++ dcgm.map (·.key)).dedup

/-- The joined (pre-fill) row of `build_unified_model` at a key. -/
def unifiedRowAt (kueue : List (KueueRow K)) (nodepool : List (NodepoolRow K))
    (dcgm : List (DcgmRow K)) (k : K) : UnifiedRow :=
  let ka := kueueAggUnified kueue k
  let na := nodepoolAggAt nodepool k
  let da := dcgmAggUnified dcgm k
  { pending_workloads := ka.map (·.pending_workloads),
    admission_wait_time_seconds := ka.map (·.admission_wait_time_seconds),
    admitted_active_workloads := ka.map (·.admitted_active_workloads),
    resource_usage := ka.map (·.resource_usage),
    evicted_workloads_total := ka.map (·.evicted_workloads_total),
    capacity_gpu_count := na.map (·.capacity_gpu_count),
    allocatable_gpu_count := na.map (·.allocatable_gpu_count),
    gpu_utilization_pct := da.map (·.gpu_utilization_pct),
    power_usage_watts := da.map (·.power_usage_watts),
    power_intensity_factor := da.map (·.power_intensity_factor),
    rfu_pct := da.map (·.rfu_pct),
    efficiency_gap := da.map (·.efficiency_gap),
    memory_used_mb := da.map (·.memory_used_mb),
    gpu_temp_celsius := da.map (·.gpu_temp_celsius),
    tensor_active_pct := da.map (·.tensor_active_pct) }

/-- The `fillna` step of `build_unified_model`: exactly the four demand-side
columns are defaulted to 0 where missing. -/
def fillDemand (r : UnifiedRow) : UnifiedRow :=
  { r with
    pending_workloads := some (r.pending_workloads.getD 0),
    admission_wait_time_seconds := some (r.admission_wait_time_seconds.getD 0),
    admitted_active_workloads := some (r.admitted_active_workloads.getD 0),
    resource_usage := some (r.resource_usage.getD 0) }

/-- Embedding of `build_unified_model`: aggregate the three sources, outer
join on the key, then zero-fill the four demand columns. -/
def build_unified_model (kueue : List (KueueRow K)) (nodepool : List (NodepoolRow K))
    (dcgm : List (DcgmRow K)) : List UnifiedRow :=
  (unifiedKeys kueue nodepool dcgm).map (fun k => fillDemand (unifiedRowAt kueue nodepool dcgm k))

/-- Aggregated Kueue row for `calculate_all_imbalance_metrics`
(sum, mean, sum, sum — four columns only). -/
structure KueueAggI where
  pending_workloads : ℚ
  admission_wait_time_seconds : ℚ
  admitted_active_workloads : ℚ
  resource_usage : ℚ

/-- Kueue aggregation inside `calculate_all_imbalance_metrics`. -/
def kueueAggImbalance (rows : List (KueueRow K)) (k : K) : Option KueueAggI :=
  let g := rows.filter (fun r => r.key = k)
  if g.isEmpty then none else
    some ⟨(g.map (·.pending_workloads)).sum,
          qmean (g.map (·.admission_wait_time_seconds)),
          (g.map (·.admitted_active_workloads)).sum,
          (g.map (·.resource_usage)).sum⟩

/-- Aggregated DCGM row for `calculate_all_imbalance_metrics` (five means). -/
structure DcgmAggI where
  gpu_utilization_pct : ℚ
  power_intensity_factor : ℚ
  rfu_pct : ℚ
  efficiency_gap : ℚ
  memory_pressure_pct : ℚ

/-- DCGM aggregation inside `calculate_all_imbalance_metrics`. -/
def dcgmAggImbalance (rows : List (DcgmRow K)) (k : K) : Option DcgmAggI :=
  let g := rows.filter (fun r => r.key = k)
  if g.isEmpty then none else
    some ⟨qmean (g.map (·.gpu_utilization_pct)),
          qmean (g.map (·.power_intensity_factor)),
          qmean (g.map (·.rfu_pct)),
          qmean (g.map (·.efficiency_gap)),
          qmean (g.map (·.memory_pressure_pct))⟩

/-- One output row of the two outer merges in
`calculate_all_imbalance_metrics` (lines 194–196 of imbalance.py): note
that this join stage applies no `fillna` at all. -/
structure ImbalanceJoinRow where
  pending_workloads : Option ℚ
  admission_wait_time_seconds : Option ℚ
  admitted_active_workloads : Option ℚ
  resource_usage : Option ℚ
  capacity_gpu_count : Option ℚ
  allocatable_gpu_count : Option ℚ
  gpu_utilization_pct : Option ℚ
  power_intensity_factor : Option ℚ
  rfu_pct : Option ℚ
  efficiency_gap : Option ℚ
  memory_pressure_pct : Option ℚ
deriving DecidableEq

/-- The joined row of `calculate_all_imbalance_metrics` at a key. -/
def imbalanceJoinRowAt (kueue : List (KueueRow K)) (nodepool : List (NodepoolRow K))
    (dcgm : List (DcgmRow K)) (k : K) : ImbalanceJoinRow :=
  let ka := kueueAggImbalance kueue k
  let na := nodepoolAggAt nodepool k
  let da := dcgmAggImbalance dcgm k
  { pending_workloads := ka.map (·.pending_workloads),
    admission_wait_time_seconds := ka.map (·.admission_wait_time_seconds),
    admitted_active_workloads := ka.map (·.admitted_active_workloads),
    resource_usage := ka.map (·.resource_usage),
    capacity_gpu_count := na.map (·.capacity_gpu_count),
    allocatable_gpu_count := na.map (·.allocatable_gpu_count),
    gpu_utilization_pct := da.map (·.gpu_utilization_pct),
    power_intensity_factor := da.map (·.power_intensity_factor),
    rfu_pct := da.map (·.rfu_pct),
    efficiency_gap := da.map (·.efficiency_gap),
    memory_pressure_pct := da.map (·.memory_pressure_pct) }

/-- The join stage of `calculate_all_imbalance_metrics`: aggregate and outer
join, with no zero-fill of missing demand columns. -/
def imbalanceJoin (kueue : List (KueueRow K)) (nodepool : List (NodepoolRow K))
    (dcgm : List (DcgmRow K)) : List ImbalanceJoinRow :=
  (unifiedKeys kueue nodepool dcgm).map (imbalanceJoinRowAt kueue nodepool dcgm)

end JoinModel

/-- A timestamp cell as the validators see it: null, a parseable/datetime
value, or a value `pd.to_datetime` rejects. -/
inductive TsCell where
  | null : TsCell
  | valid : TsCell
  | invalid : TsCell
deriving DecidableEq

/-- Discriminates `Except.error` results (a raised `ValidationError`). -/
def errs {α : Type} : Except String α → Bool
  | .error _ => true
  | .ok _ => false

/-- One nodepool_state row with the validated value columns. -/
structure NodepoolVRow where
  capacity_gpu_count : ℚ
  allocatable_gpu_count : ℚ
  timestamp : TsCell

/-- A nodepool_state table: its column-name set plus its rows. -/
structure NodepoolDF where
  columns : List String
  rows : List NodepoolVRow

/-- One kueue_metrics row with the validated value columns. -/
structure KueueVRow where
  pending_workloads : ℚ
  admission_wait_time_seconds : ℚ
  admitted_active_workloads : ℚ
  resource_usage : ℚ
  timestamp : TsCell

/-- A kueue_metrics table. -/
structure KueueDF where
  columns : List String
  rows : List KueueVRow

/-- One dcgm_metrics row with the validated value columns. -/
structure DcgmVRow where
  gpu_utilization_pct : ℚ
  power_usage_watts : ℚ
  memory_used_mb : ℚ
  memory_free_mb : ℚ
  gpu_temp_celsius : ℚ
  tensor_active_pct : ℚ
  timestamp : TsCell

/-- A dcgm_metrics table; `tensor_active_pct` values are only meaningful
when that column is present in `columns`, matching its optional check. -/
structure DcgmDF where
  columns : List String
  rows : List DcgmVRow

/-- Required columns of `validate_nodepool_data`. -/
def nodepoolRequired : List String :=
  ["timestamp", "timestamp_hour", "nodegroup", "cluster", "region",
   "gpu_model", "capacity_gpu_count", "allocatable_gpu_count"]

/-- Required columns of `validate_kueue_data`. -/
def kueueRequired : List String :=
  ["timestamp", "timestamp_hour", "cluster", "region", "namespace",
   "queue_name", "nodegroup", "pending_workloads", "admission_wait_time_seconds",
   "admitted_active_workloads", "resource_usage"]

/-- Required columns of `validate_dcgm_data`. -/
def dcgmRequired : List String :=
  ["timestamp", "timestamp_hour", "hostname", "cluster", "region",
   "nodegroup", "gpu_model", "gpu_uuid", "gpu_utilization_pct",
   "power_usage_watts", "memory_used_mb", "memory_free_mb", "gpu_temp_celsius"]

/-- Embedding of `_check_required_columns`. -/
def checkRequiredColumns (cols required : List String) (dataset : String) :
    Except String Unit :=
  if required.all (fun c => cols.contains c) then .ok ()
  else .error (dataset ++ ": Missing required columns")

/-- Embedding of `_check_timestamps`: null check first, then parseability
(a column already of datetime dtype has no unparseable cells). -/
def checkTimestamps (ts : List TsCell) (dataset : String) : Except String Unit :=
  if ts.any (fun t => t == TsCell.null) then
    .error (dataset ++ ": timestamp contains null values")
  else if ts.any (fun t => t == TsCell.invalid) then
    .error (dataset ++ ": timestamp contains invalid datetime values")
  else .ok ()

/-- Embedding of `validate_nodepool_data`: the if/raise chain in source order. -/
def validate_nodepool_data (df : NodepoolDF) : Except String Unit :=
  match checkRequiredColumns df.columns nodepoolRequired "nodepool_state" with
  | .error e => .error e
  | .ok _ =>
    if df.rows.any (fun r => r.capacity_gpu_count < 0) then
      .error "nodepool_state: capacity_gpu_count contains negative values"
    else if df.rows.any (fun r => r.allocatable_gpu_count < 0) then
      .error "nodepool_state: allocatable_gpu_count contains negative values"
    else if df.rows.any (fun r => r.capacity_gpu_count < r.allocatable_gpu_count) then
      .error "nodepool_state: allocatable_gpu_count exceeds capacity_gpu_count"
    else checkTimestamps (df.rows.map (·.timestamp)) "nodepool_state"

/-- Embedding of `validate_kueue_data`. -/
def validate_kueue_data (df : KueueDF) : Except String Unit :=
  match checkRequiredColumns df.columns kueueRequired "kueue_metrics" with
  | .error e => .error e
  | .ok _ =>
    if df.rows.any (fun r => r.pending_workloads < 0) then
      .error "kueue_metrics: pending_workloads contains negative values"
    else if df.rows.any (fun r => r.admitted_active_workloads < 0) then
      .error "kueue_metrics: admitted_active_workloads contains negative values"
    else if df.rows.any (fun r => r.resource_usage < 0) then
      .error "kueue_metrics: resource_usage contains negative values"
    else if df.rows.any (fun r => r.admission_wait_time_seconds < 0) then
      .error "kueue_metrics: admission_wait_time_seconds contains negative values"
    else checkTimestamps (df.rows.map (·.timestamp)) "kueue_metrics"

/-- Embedding of `validate_dcgm_data`. -/
def validate_dcgm_data (df : DcgmDF) : Except String Unit :=
  match checkRequiredColumns df.columns dcgmRequired "dcgm_metrics" with
  | .error e => .error e
  | .ok _ =>
    if df.rows.any (fun r => r.gpu_utilization_pct < 0 ∨ 100 < r.gpu_utilization_pct) then
      .error "dcgm_metrics: gpu_utilization_pct out of range [0, 100]"
    else if df.columns.contains "tensor_active_pct" &&
        df.rows.any (fun r => r.tensor_active_pct < 0 ∨ 100 < r.tensor_active_pct) then
      .error "dcgm_metrics: tensor_active_pct out of range [0, 100]"
    else if df.rows.any (fun r => r.power_usage_watts < 0) then
      .error "dcgm_metrics: power_usage_watts contains negative values"
    else if df.rows.any (fun r => r.memory_used_mb < 0) then
      .error "dcgm_metrics: memory_used_mb contains negative values"
    else if df.rows.any (fun r => r.memory_free_mb < 0) then
      .error "dcgm_metrics: memory_free_mb contains negative values"
    else if df.rows.any (fun r => r.gpu_temp_celsius < 0 ∨ 120 < r.gpu_temp_celsius) then
      .error "dcgm_metrics: gpu_temp_celsius out of range [0, 120]"
    else checkTimestamps (df.rows.map (·.timestamp)) "dcgm_metrics"

/-- Spec-side list of checks for nodepool_state (§7): the table violates the
validator's contract exactly when one of these holds. -/
def nodepoolViolation (df : NodepoolDF) : Prop :=
  (∃ c ∈ nodepoolRequired, c ∉ df.columns) ∨
  (∃ r ∈ df.rows, r.capacity_gpu_count < 0) ∨
  (∃ r ∈ df.rows, r.allocatable_gpu_count < 0) ∨
  (∃ r ∈ df.rows, r.capacity_gpu_count < r.allocatable_gpu_count) ∨
  (∃ r ∈ df.rows, r.timestamp = TsCell.null) ∨
  (∃ r ∈ df.rows, r.timestamp = TsCell.invalid)

/-- Spec-side list of checks for kueue_metrics. -/
def kueueViolation (df : KueueDF) : Prop :=
  (∃ c ∈ kueueRequired, c ∉ df.columns) ∨
  (∃ r ∈ df.rows, r.pending_workloads < 0) ∨
  (∃ r ∈ df.rows, r.admitted_active_workloads < 0) ∨
  (∃ r ∈ df.rows, r.resource_usage < 0) ∨
  (∃ r ∈ df.rows, r.admission_wait_time_seconds < 0) ∨
  (∃ r ∈ df.rows, r.timestamp = TsCell.null) ∨
  (∃ r ∈ df.rows, r.timestamp = TsCell.invalid)

/-- Spec-side list of checks for dcgm_metrics. -/
def dcgmViolation (df : DcgmDF) : Prop :=
  (∃ c ∈ dcgmRequired, c ∉ df.columns) ∨
  (∃ r ∈ df.rows, r.gpu_utilization_pct < 0 ∨ 100 < r.gpu_utilization_pct) ∨
  ("tensor_active_pct" ∈ df.columns ∧
    ∃ r ∈ df.rows, r.tensor_active_pct < 0 ∨ 100 < r.tensor_active_pct) ∨
  (∃ r ∈ df.rows, r.power_usage_watts < 0) ∨
  (∃ r ∈ df.rows, r.memory_used_mb < 0) ∨
  (∃ r ∈ df.rows, r.memory_free_mb < 0) ∨
  (∃ r ∈ df.rows, r.gpu_temp_celsius < 0 ∨ 120 < r.gpu_temp_celsius) ∨
  (∃ r ∈ df.rows, r.timestamp = TsCell.null) ∨
  (∃ r ∈ df.rows, r.timestamp = TsCell.invalid)

/-- Per-row derived output of the efficiency stage, as run by the pipeline
after validation (quick_start.py step 2 on generator-validated data). -/
def deriveRowMetrics (power : ℚ) (model : String) (util used free : ℚ) :
    ℚ × ℚ × ℚ × ℚ × ℚ × String :=
  let pif := calculate_power_intensity_factor power model
  let realized := calculate_realized_tflops model pif
  let rfu := calculate_rfu model realized
  ⟨pif, realized, rfu, calculate_efficiency_gap util rfu,
    calculate_memory_pressure used free, classify_row util pif⟩

/-- Fail-fast pipeline over one dcgm table: metrics are derived only when
validation succeeded, so a raised `ValidationError` yields no output at all. -/
def pipelineDcgm (df : DcgmDF) (model : String) :
    Except String (List (ℚ × ℚ × ℚ × ℚ × ℚ × String)) :=
  match validate_dcgm_data df with
  | .error e => .error e
  | .ok _ => .ok (df.rows.map (fun r =>
      deriveRowMetrics r.power_usage_watts model r.gpu_utilization_pct
        r.memory_used_mb r.memory_free_mb))

/-- Fail-fast pipeline over one kueue table: the queue pressure score (the
metric the scorer and the contributor ranker derive from kueue data, with
the default 0.6/0.4 weights) is computed only when validation succeeded. -/
def pipelineKueue (df : KueueDF) : Except String (List ℚ) :=
  match validate_kueue_data df with
  | .error e => .error e
  | .ok _ => .ok (calculate_queue_pressure_score
      (df.rows.map (·.pending_workloads))
      (df.rows.map (·.admission_wait_time_seconds)) (0.6 : ℚ) (0.4 : ℚ))

/-- Fail-fast pipeline over one nodepool table: the mean capacity and mean
allocatable GPU counts (the `'mean'` reduction both join stages apply to the
nodepool columns) are computed only when validation succeeded. -/
def pipelineNodepool (df : NodepoolDF) : Except String (ℚ × ℚ) :=
  match validate_nodepool_data df with
  | .error e => .error e
  | .ok _ => .ok ⟨qmean (df.rows.map (·.capacity_gpu_count)),
      qmean (df.rows.map (·.allocatable_gpu_count))⟩

/-- One cell of a generic column: numeric or string. -/
inductive Cell where
  | num : ℚ → Cell
  | str : String → Cell
deriving DecidableEq

/-- A generic pandas DataFrame for the frame-effect analysis: an ordered
association list of named columns (column names are unique in pandas). -/
abbrev DataFrame : Type := List (String × List Cell)

/-- Column lookup `df[name]`. -/
def getCol (df : DataFrame) (name : String) : Option (List Cell) :=
  match df with
  | [] => none
  | (m, col) :: rest => if m = name then some col else getCol rest name

/-- Column assignment `df[name] = v`: pandas replaces an existing column in
place and appends a new one at the end. -/
def setCol (df : DataFrame) (name : String) (v : List Cell) : DataFrame :=
  match df with
  | [] => [(name, v)]
  | (m, col) :: rest =>
    if m = name then (name, v) :: rest else (m, col) :: setCol rest name v

/-- Reads a column as numbers; `none` when absent or non-numeric. -/
def colNums : List Cell → Option (List ℚ)
  | [] => some []
  | Cell.num q :: rest => (colNums rest).map (fun l => q :: l)
  | Cell.str _ :: _ => none

/-- Reads a column as strings; `none` when absent or non-string. -/
def colStrs : List Cell → Option (List String)
  | [] => some []
  | Cell.str s :: rest => (colStrs rest).map (fun l => s :: l)
  | Cell.num _ :: _ => none

/-- Reads a numeric column by name. -/
def getNums (df : DataFrame) (name : String) : Option (List ℚ) :=
  (getCol df name).bind colNums

/-- Reads a string column by name. -/
def getStrs (df : DataFrame) (name : String) : Option (List String) :=
  (getCol df name).bind colStrs

/-- Names of the six derived columns added by `add_efficiency_metrics`. -/
def derivedNames : List String :=
  ["power_intensity_factor", "realized_tflops", "rfu_pct",
   "efficiency_gap", "memory_pressure_pct", "efficiency_class"]

/-- Embedding of `add_efficiency_metrics`.  The result pairs the returned
frame with the caller's argument as it stands after the call: with
`inplace=True` the argument object itself was mutated, with
`inplace=False` the mutations hit a copy and the argument is untouched.
Reading a missing or mistyped base column is a pandas `KeyError`/`TypeError`,
modelled as `none`. -/
def add_efficiency_metrics (df : DataFrame) (inplace : Bool) :
    Option (DataFrame × DataFrame) := do
  let power ← getNums df "power_usage_watts"
  let model ← getStrs df "gpu_model"
  let util ← getNums df "gpu_utilization_pct"
  let used ← getNums df "memory_used_mb"
  let free ← getNums df "memory_free_mb"
  let pif := List.zipWith calculate_power_intensity_factor power model
  let realized := List.zipWith calculate_realized_tflops model pif
  let rfu := List.zipWith calculate_rfu model realized
  let gap := List.zipWith calculate_efficiency_gap util rfu
  let mem := List.zipWith calculate_memory_pressure used free
  let cls := List.zipWith classify_row util pif
  let out := setCol (setCol (setCol (setCol (setCol (setCol df
    "power_intensity_factor" (pif.map Cell.num))
    "realized_tflops" (realized.map Cell.num))
    "rfu_pct" (rfu.map Cell.num))
    "efficiency_gap" (gap.map Cell.num))
    "memory_pressure_pct" (mem.map Cell.num))
    "efficiency_class" (cls.map Cell.str)
  some (out, if inplace then out else df)

/-- The PIF column as derived by `add_efficiency_metrics`. -/
def pifSeries (power : List ℚ) (model : List String) : List ℚ :=
  List.zipWith calculate_power_intensity_factor power model

/-- The realized-TFLOPS column as derived by `add_efficiency_metrics`. -/
def realizedSeries (power : List ℚ) (model : List String) : List ℚ :=
  List.zipWith calculate_realized_tflops model (pifSeries power model)

/-- The RFU column as derived by `add_efficiency_metrics`. -/
def rfuSeries (power : List ℚ) (model : List String) : List ℚ :=
  List.zipWith calculate_rfu model (realizedSeries power model)

/-- The efficiency-gap column as derived by `add_efficiency_metrics`. -/
def gapSeries (util power : List ℚ) (model : List String) : List ℚ :=
  List.zipWith calculate_efficiency_gap util (rfuSeries power model)

/-- The memory-pressure column as derived by `add_efficiency_metrics`. -/
def memSeries (used free : List ℚ) : List ℚ :=
  List.zipWith calculate_memory_pressure used free

/-- The efficiency-class column as derived by `add_efficiency_metrics`. -/
def clsSeries (util power : List ℚ) (model : List String) : List String :=
  List.zipWith classify_row util (pifSeries power model)

/-- A one-row DCGM frame used to instantiate the frame-effect theorem. -/
def sampleDcgmFrame : DataFrame :=
  [("power_usage_watts", [Cell.num 400]),
   ("gpu_model", [Cell.str "NVIDIA A100-SXM4-40GB"]),
   ("gpu_utilization_pct", [Cell.num 80]),
   ("memory_used_mb", [Cell.num 10]),
   ("memory_free_mb", [Cell.num 30])]


/-- The source calls `normalize_series` with its default arguments inside
`calculate_queue_pressure_score`; that call is the global min-max branch. -/
theorem normalize_series_default (s : List ℚ) :
    normalize_series s "minmax" none = .ok (normalizeGlobal s) := rfl

theorem foldl_min_le_init (t : List ℚ) (a : ℚ) : t.foldl min a ≤ a := by
  induction t generalizing a with
  | nil => simp
  | cons x xs ih => exact le_trans (ih (min a x)) (min_le_left a x)

theorem foldl_min_le_mem (t : List ℚ) (a x : ℚ) (hx : x ∈ t) : t.foldl min a ≤ x := by
  induction t generalizing a with
  | nil => cases hx
  | cons y ys ih =>
    rcases List.mem_cons.mp hx with h | h
    · subst h
      exact le_trans (foldl_min_le_init ys (min a x)) (min_le_right a x)
    · exact ih (min a y) h

theorem seriesMin_le_mem (s : List ℚ) (x : ℚ) (hx : x ∈ s) : seriesMin s ≤ x := by
  cases s with
  | nil => cases hx
  | cons a t =>
    rcases List.mem_cons.mp hx with h | h
    · subst h; exact foldl_min_le_init t x
    · exact foldl_min_le_mem t a x h

theorem init_le_foldl_max (t : List ℚ) (a : ℚ) : a ≤ t.foldl max a := by
  induction t generalizing a with
  | nil => simp
  | cons x xs ih => exact le_trans (le_max_left a x) (ih (max a x))

theorem mem_le_foldl_max (t : List ℚ) (a x : ℚ) (hx : x ∈ t) : x ≤ t.foldl max a := by
  induction t generalizing a with
  | nil => cases hx
  | cons y ys ih =>
    rcases List.mem_cons.mp hx with h | h
    · subst h
      exact le_trans (le_max_right a x) (init_le_foldl_max ys (max a x))
    · exact ih (max a y) h

theorem mem_le_seriesMax (s : List ℚ) (x : ℚ) (hx : x ∈ s) : x ≤ seriesMax s := by
  cases s with
  | nil => cases hx
  | cons a t =>
    rcases List.mem_cons.mp hx with h | h
    · subst h; exact init_le_foldl_max t x
    · exact mem_le_foldl_max t a x h

theorem normElem_bounds (s : List ℚ) (x : ℚ) (hx : x ∈ s) :
    0 ≤ normElem s x ∧ normElem s x ≤ 1 := by
  have hmn := seriesMin_le_mem s x hx
  have hmx := mem_le_seriesMax s x hx
  unfold normElem replaceZeroOne
  by_cases h : seriesMax s - seriesMin s = 0
  · have hx0 : x - seriesMin s = 0 := by
      have hms : seriesMax s = seriesMin s := by linarith
      have h1 : x ≤ seriesMin s := by rw [← hms]; exact hmx
      linarith
    rw [if_pos h, hx0]
    norm_num
  · have hpos : 0 < seriesMax s - seriesMin s := by
      rcases lt_or_eq_of_le (by linarith : (0:ℚ) ≤ seriesMax s - seriesMin s) with hlt | heq
      · exact hlt
      · exact absurd heq.symm h
    rw [if_neg h]
    constructor
    · exact div_nonneg (by linarith) (le_of_lt hpos)
    · rw [div_le_one hpos]; linarith

theorem normElem_eq_one_iff (s : List ℚ) (x : ℚ) (hx : x ∈ s) :
    normElem s x = 1 ↔ (x = seriesMax s ∧ seriesMin s ≠ seriesMax s) := by
  have hmn := seriesMin_le_mem s x hx
  have hmx := mem_le_seriesMax s x hx
  unfold normElem replaceZeroOne
  by_cases h : seriesMax s - seriesMin s = 0
  · have hx0 : x - seriesMin s = 0 := by
      have h1 : x ≤ seriesMin s := by
        have hms : seriesMax s = seriesMin s := by linarith
        rw [← hms]; exact hmx
      linarith
    rw [if_pos h, hx0]
    constructor
    · intro h0; norm_num at h0
    · rintro ⟨_, hne⟩; exact absurd (by linarith : seriesMin s = seriesMax s) hne
  · have hpos : 0 < seriesMax s - seriesMin s := by
      rcases lt_or_eq_of_le (by linarith : (0:ℚ) ≤ seriesMax s - seriesMin s) with hlt | heq
      · exact hlt
      · exact absurd heq.symm h
    rw [if_neg h, div_eq_one_iff_eq (ne_of_gt hpos)]
    constructor
    · intro he
      refine ⟨by linarith, ?_⟩
      intro hcontra; rw [hcontra] at hpos; linarith
    · rintro ⟨he, _⟩; rw [he]

theorem getD_zipWith (f : ℚ → ℚ → ℚ) (a b : List ℚ) (i : ℕ)
    (ha : i < a.length) (hb : i < b.length) :
    (List.zipWith f a b).getD i 0 = f (a.getD i 0) (b.getD i 0) := by
  have hlen : i < (List.zipWith f a b).length := by
    rw [List.length_zipWith]; omega
  rw [List.getD_eq_getElem _ _ hlen, List.getD_eq_getElem _ _ ha, List.getD_eq_getElem _ _ hb]
  exact List.getElem_zipWith

theorem getD_map (g : ℚ → ℚ) (a : List ℚ) (i : ℕ) (ha : i < a.length) :
    (a.map g).getD i 0 = g (a.getD i 0) := by
  have hlen : i < (a.map g).length := by simpa using ha
  rw [List.getD_eq_getElem _ _ hlen, List.getD_eq_getElem _ _ ha]
  simp

theorem getD_mem (a : List ℚ) (i : ℕ) (ha : i < a.length) : a.getD i 0 ∈ a := by
  rw [List.getD_eq_getElem _ _ ha]
  exact List.getElem_mem ha

theorem getCol_setCol_self (df : DataFrame) (name : String) (v : List Cell) :
    getCol (setCol df name v) name = some v := by
  induction df with
  | nil => simp [setCol, getCol]
  | cons p rest ih =>
    obtain ⟨m, col⟩ := p
    by_cases hp : m = name
    · simp [setCol, getCol, hp]
    · rw [setCol, if_neg hp, getCol, if_neg hp]
      exact ih

theorem getCol_setCol_ne (df : DataFrame) (name c : String) (v : List Cell)
    (hne : name ≠ c) : getCol (setCol df name v) c = getCol df c := by
  induction df with
  | nil => simp [setCol, getCol, hne]
  | cons p rest ih =>
    obtain ⟨m, col⟩ := p
    by_cases hp : m = name
    · rw [setCol, if_pos hp, getCol, if_neg hne, getCol, if_neg]
      rw [hp]; exact hne
    · rw [setCol, if_neg hp, getCol, getCol]
      by_cases hc : m = c
      · rw [if_pos hc, if_pos hc]
      · rw [if_neg hc, if_neg hc]
        exact ih

/-- C1 counterexample: the claim asserts that the input `utilization = 75`,
`PIF = 0.65` falls through to `Inefficient`; the code classifies it as
`Moderate`, because the fourth rule `utilization ≥ 40 ∧ PIF ≥ 0.50` catches
it. -/
theorem C1_counterexample :
    classify_row 75 (0.65 : ℚ) = "Moderate" ∧ classify_row 75 (0.65 : ℚ) ≠ "Inefficient" := by
  have h : classify_row 75 (0.65 : ℚ) = "Moderate" := by norm_num [classify_row]
  refine ⟨h, ?_⟩
  rw [h]
  decide

/-- C1 (amended): `classify_efficiency` is the ordered, first-match-wins
decision table over (utilization, PIF) stated in §4.1; for utilization = 75
and PIF = 0.65 it returns `Moderate` (not `Inefficient`), and the boundary
input utilization = 70, PIF = 0.60 returns `Moderate`, not `Bottlenecked`. -/
theorem C1_efficiency_decision_table :
    (∀ u p : ℚ, classify_row u p = firstMatch effRules u p "Inefficient") ∧
    classify_row 75 (0.65 : ℚ) = "Moderate" ∧
    classify_row 70 (0.60 : ℚ) = "Moderate" := by
  refine ⟨fun u p => ?_, ?_, ?_⟩
  · simp only [classify_row, firstMatch, effRules, Bool.and_eq_true, decide_eq_true_eq]
  · norm_num [classify_row]
  · norm_num [classify_row]

/-- C2 counterexample: in the first case of the concrete scenario
(power = 400 on the max_power = 400, achievable = 102 spec, utilization = 80)
RFU is 100, so the efficiency gap is 80 − 100 = −20, not the 30 the claim
states. -/
theorem C2_counterexample :
    calculate_efficiency_gap 80
      (calculate_rfu "NVIDIA A100-SXM4-40GB"
        (calculate_realized_tflops "NVIDIA A100-SXM4-40GB"
          (calculate_power_intensity_factor 400 "NVIDIA A100-SXM4-40GB"))) = -20 ∧
    (-20 : ℚ) ≠ 30 := by
  constructor
  · simp [calculate_efficiency_gap, calculate_rfu, calculate_realized_tflops,
      calculate_power_intensity_factor, achievableFor, maxPowerFor, GPU_SPECS, clip]
    norm_num
  · norm_num

/-- C2 (amended): for the model spec max_power = 400, achievable = 102:
power 400 gives PIF = 1, realized = 102, RFU = 100; power 200 gives
PIF = 0.5, realized = 51, RFU = 50; with utilization = 80 the efficiency gap
is 80 − 100 = −20 in the first case and 80 − 50 = 30 in the second. -/
theorem C2_concrete_scenario :
    calculate_power_intensity_factor 400 "NVIDIA A100-SXM4-40GB" = 1 ∧
    calculate_realized_tflops "NVIDIA A100-SXM4-40GB" 1 = 102 ∧
    calculate_rfu "NVIDIA A100-SXM4-40GB" 102 = 100 ∧
    calculate_power_intensity_factor 200 "NVIDIA A100-SXM4-40GB" = 1/2 ∧
    calculate_realized_tflops "NVIDIA A100-SXM4-40GB" (1/2) = 51 ∧
    calculate_rfu "NVIDIA A100-SXM4-40GB" 51 = 50 ∧
    calculate_efficiency_gap 80 100 = -20 ∧
    calculate_efficiency_gap 80 50 = 30 := by
  refine ⟨?_, ?_, ?_, ?_, ?_, ?_, ?_, ?_⟩ <;>
    · simp [calculate_efficiency_gap, calculate_rfu, calculate_realized_tflops,
        calculate_power_intensity_factor, achievableFor, maxPowerFor, GPU_SPECS, clip]
      try norm_num

/-- C4: `classify_imbalance_severity` is the stateless ordered first-match
rule list of §4.5 over (CIS, DCR): CIS > 0.7 ∨ DCR > 2.0 → Critical;
CIS > 0.5 ∨ DCR > 1.0 → Warning; CIS > 0.3 → Moderate; else Healthy;
with (0.8, 0.5) → Critical, (0.3, 2.5) → Critical, (0.2, 0.3) → Healthy. -/
theorem C4_severity_decision_table :
    (∀ c d : ℚ, classify_severity c d = firstMatch sevRules c d "Healthy") ∧
    classify_severity (0.8 : ℚ) (0.5 : ℚ) = "Critical" ∧
    classify_severity (0.3 : ℚ) (2.5 : ℚ) = "Critical" ∧
    classify_severity (0.2 : ℚ) (0.3 : ℚ) = "Healthy" := by
  refine ⟨fun c d => ?_, ?_, ?_, ?_⟩
  · simp only [classify_severity, firstMatch, sevRules, Bool.or_eq_true, decide_eq_true_eq]
  · norm_num [classify_severity]
  · norm_num [classify_severity]
  · norm_num [classify_severity]

/-- C7: for fixed ε > 0 and non-negative inputs, DCR = pending /
(available_capacity + ε) is monotonically increasing in pending and
monotonically decreasing in available_capacity. -/
theorem C7_dcr_monotonicity (epsilon : ℚ) (heps : 0 < epsilon) :
    (∀ p1 p2 c : ℚ, 0 ≤ c → p1 ≤ p2 →
      calculate_demand_capacity_ratio p1 c epsilon ≤
        calculate_demand_capacity_ratio p2 c epsilon) ∧
    (∀ p c1 c2 : ℚ, 0 ≤ p → 0 ≤ c1 → c1 ≤ c2 →
      calculate_demand_capacity_ratio p c2 epsilon ≤
        calculate_demand_capacity_ratio p c1 epsilon) := by
  constructor
  · intro p1 p2 c hc h12
    unfold calculate_demand_capacity_ratio
    have hpos : 0 < c + epsilon := by linarith
    exact div_le_div_of_nonneg_right h12 hpos.le
  · intro p c1 c2 hp hc1 h12
    unfold calculate_demand_capacity_ratio
    have hpos : 0 < c1 + epsilon := by linarith
    exact div_le_div_of_nonneg_left hp hpos (by linarith)

/-- C7 witness: instantiated at ε = 1e-6 with concrete non-negative inputs. -/
theorem C7_dcr_monotonicity_witness :
    (0 : ℚ) < 1/1000000 ∧
    (calculate_demand_capacity_ratio 3 10 (1/1000000) ≤
      calculate_demand_capacity_ratio 7 10 (1/1000000)) ∧
    (calculate_demand_capacity_ratio 3 20 (1/1000000) ≤
      calculate_demand_capacity_ratio 3 10 (1/1000000)) :=
  ⟨by norm_num,
   (C7_dcr_monotonicity (1/1000000) (by norm_num)).1 3 7 10 (by norm_num) (by norm_num),
   (C7_dcr_monotonicity (1/1000000) (by norm_num)).2 3 10 20 (by norm_num) (by norm_num)
     (by norm_num)⟩

/-- C8: a gpu_model absent from the static `GPU_SPECS` table does not make
the efficiency calculator fail: PIF and realized throughput are computed
with the default spec max_power = 400, achievable_throughput = 100, exactly
as for a catalogued model with those spec values. -/
theorem C8_unknown_model_default (model : String) (h : GPU_SPECS model = none) :
    maxPowerFor model = 400 ∧ achievableFor model = 100 ∧
    (∀ power : ℚ, calculate_power_intensity_factor power model =
      pifWithSpec ⟨400, 100⟩ power) ∧
    (∀ pif : ℚ, calculate_realized_tflops model pif =
      realizedWithSpec ⟨400, 100⟩ pif) := by
  have hmp : maxPowerFor model = 400 := by unfold maxPowerFor; rw [h]
  have hac : achievableFor model = 100 := by unfold achievableFor; rw [h]
  refine ⟨hmp, hac, fun power => ?_, fun pif => ?_⟩
  · unfold calculate_power_intensity_factor pifWithSpec
    rw [hmp]
  · unfold calculate_realized_tflops realizedWithSpec
    rw [hac]

/-- C8 witness: the model string "NVIDIA B200" is uncatalogued and computes
with the default spec. -/
theorem C8_unknown_model_default_witness :
    GPU_SPECS "NVIDIA B200" = none ∧
    calculate_power_intensity_factor 200 "NVIDIA B200" = pifWithSpec ⟨400, 100⟩ 200 ∧
    calculate_realized_tflops "NVIDIA B200" (1/2) = realizedWithSpec ⟨400, 100⟩ (1/2) := by
  have h : GPU_SPECS "NVIDIA B200" = none := by simp [GPU_SPECS]
  exact ⟨h, (C8_unknown_model_default "NVIDIA B200" h).2.2.1 200,
    (C8_unknown_model_default "NVIDIA B200" h).2.2.2 (1/2)⟩

/-- C5 counterexample: at index 1 of pending = [5, 5] and wait = [0, 10],
both inputs attain the maximum of their normalization window (5 is the
maximum of the constant window), but QPS is 0.4, not 1.0 — refuting the
claimed "if and only if". -/
theorem C5_counterexample :
    ([5, 5] : List ℚ).getD 1 0 = seriesMax [5, 5] ∧
    ([0, 10] : List ℚ).getD 1 0 = seriesMax [0, 10] ∧
    (calculate_queue_pressure_score [5, 5] [0, 10] (0.6 : ℚ) (0.4 : ℚ)).getD 1 0 = 2/5 ∧
    (2/5 : ℚ) ≠ 1 := by
  refine ⟨?_, ?_, ?_, by norm_num⟩
  · simp [seriesMax]
  · simp [seriesMax]
  · simp [calculate_queue_pressure_score, normalizeGlobal, normElem, seriesMin, seriesMax,
      replaceZeroOne]
    norm_num

/-- C5 (amended): every element of QPS = 0.6·normalize(pending) +
0.4·normalize(wait) lies in [0, 1], and an element equals exactly 1.0 if and
only if both inputs attain the maximum of their normalization window and
neither window is constant (so that the normalized term is 1, not the
degenerate 0). -/
theorem C5_qps_bounds_and_max (pending wait : List ℚ) (i : ℕ)
    (hp : i < pending.length) (hw : i < wait.length) :
    (0 ≤ (calculate_queue_pressure_score pending wait (0.6 : ℚ) (0.4 : ℚ)).getD i 0 ∧
      (calculate_queue_pressure_score pending wait (0.6 : ℚ) (0.4 : ℚ)).getD i 0 ≤ 1) ∧
    ((calculate_queue_pressure_score pending wait (0.6 : ℚ) (0.4 : ℚ)).getD i 0 = 1 ↔
      (pending.getD i 0 = seriesMax pending ∧ seriesMin pending ≠ seriesMax pending) ∧
      (wait.getD i 0 = seriesMax wait ∧ seriesMin wait ≠ seriesMax wait)) := by
  have hq : (calculate_queue_pressure_score pending wait (0.6 : ℚ) (0.4 : ℚ)).getD i 0 =
      (0.6 : ℚ) * normElem pending (pending.getD i 0) +
      (0.4 : ℚ) * normElem wait (wait.getD i 0) := by
    unfold calculate_queue_pressure_score normalizeGlobal
    rw [getD_zipWith _ _ _ _ (by simpa using hp) (by simpa using hw),
      getD_map _ _ _ hp, getD_map _ _ _ hw]
  have hxm := getD_mem pending i hp
  have hwm := getD_mem wait i hw
  obtain ⟨hnp0, hnp1⟩ := normElem_bounds pending _ hxm
  obtain ⟨hnw0, hnw1⟩ := normElem_bounds wait _ hwm
  rw [hq]
  constructor
  · constructor
    · nlinarith
    · nlinarith
  · rw [← normElem_eq_one_iff pending _ hxm, ← normElem_eq_one_iff wait _ hwm]
    constructor
    · intro h1
      constructor <;> nlinarith
    · rintro ⟨h1, h2⟩
      rw [h1, h2]
      norm_num

/-- C5 witness: the bounds and characterization instantiated at index 0 of
pending = [2, 6], wait = [1, 3]. -/
theorem C5_qps_bounds_and_max_witness :
    (0 : ℕ) < ([2, 6] : List ℚ).length ∧ (0 : ℕ) < ([1, 3] : List ℚ).length ∧
    (0 ≤ (calculate_queue_pressure_score [2, 6] [1, 3] (0.6 : ℚ) (0.4 : ℚ)).getD 0 0 ∧
      (calculate_queue_pressure_score [2, 6] [1, 3] (0.6 : ℚ) (0.4 : ℚ)).getD 0 0 ≤ 1) ∧
    ((calculate_queue_pressure_score [2, 6] [1, 3] (0.6 : ℚ) (0.4 : ℚ)).getD 0 0 = 1 ↔
      (([2, 6] : List ℚ).getD 0 0 = seriesMax [2, 6] ∧ seriesMin [2, 6] ≠ seriesMax [2, 6]) ∧
      (([1, 3] : List ℚ).getD 0 0 = seriesMax [1, 3] ∧ seriesMin [1, 3] ≠ seriesMax [1, 3])) :=
  ⟨by norm_num, by norm_num,
    (C5_qps_bounds_and_max [2, 6] [1, 3] 0 (by norm_num) (by norm_num)).1,
    (C5_qps_bounds_and_max [2, 6] [1, 3] 0 (by norm_num) (by norm_num)).2⟩

theorem foldl_min_replicate (k : ℕ) (c : ℚ) : (List.replicate k c).foldl min c = c := by
  induction k with
  | zero => rfl
  | succ m ih => simpa [List.replicate_succ, min_self] using ih

theorem foldl_max_replicate (k : ℕ) (c : ℚ) : (List.replicate k c).foldl max c = c := by
  induction k with
  | zero => rfl
  | succ m ih => simpa [List.replicate_succ, max_self] using ih

theorem seriesMin_replicate (n : ℕ) (c : ℚ) (hn : 0 < n) :
    seriesMin (List.replicate n c) = c := by
  cases n with
  | zero => cases hn
  | succ k => simpa [List.replicate_succ, seriesMin] using foldl_min_replicate k c

theorem seriesMax_replicate (n : ℕ) (c : ℚ) (hn : 0 < n) :
    seriesMax (List.replicate n c) = c := by
  cases n with
  | zero => cases hn
  | succ k => simpa [List.replicate_succ, seriesMax] using foldl_max_replicate k c

theorem normElem_replicate_self (n : ℕ) (c : ℚ) (hn : 0 < n) :
    normElem (List.replicate n c) c = 0 := by
  unfold normElem
  rw [seriesMin_replicate n c hn, seriesMax_replicate n c hn, sub_self]
  simp [replaceZeroOne]

theorem rollWindow_replicate (w n i : ℕ) (c : ℚ) :
    rollWindow w (List.replicate n c) i = List.replicate (min (i + 1) n - (i + 1 - w)) c := by
  simp [rollWindow, List.take_replicate, List.drop_replicate]

/-- C6 counterexample: the percentile mode is a supported normalization mode,
and on the constant series [5, 5] it returns 3/4 for every element, not 0 —
refuting the claim for that mode (the value is still well-defined). -/
theorem C6_counterexample :
    normalize_series [(5 : ℚ), 5] "percentile" none = .ok [3/4, 3/4] ∧
    (3/4 : ℚ) ≠ 0 := by
  constructor
  · simp [normalize_series, rankPct, List.filter]
    norm_num
  · norm_num

/-- C6 (amended): for every constant non-empty series, the minmax mode — the
mode whose degenerate zero-range case the spec defines — returns 0 for every
element under every window argument and never errs; the percentile mode also
never errs and returns a well-defined value, but that value is (n+1)/(2n)
per element (its fractional average rank), not 0. -/
theorem normalize_series_minmax (s : List ℚ) (window : Option ℕ) :
    normalize_series s "minmax" window =
      .ok (if useRolling window then normalizeRolling (window.getD 1) s
           else normalizeGlobal s) := rfl

theorem normalize_series_percentile (s : List ℚ) (window : Option ℕ) :
    normalize_series s "percentile" window = .ok (rankPct s) := rfl

theorem C6_constant_series (c : ℚ) (n : ℕ) (window : Option ℕ) (hn : 0 < n) :
    normalize_series (List.replicate n c) "minmax" window = .ok (List.replicate n 0) ∧
    normalize_series (List.replicate n c) "percentile" window =
      .ok (List.replicate n (((n : ℚ) + 1) / (2 * n))) := by
  constructor
  · rw [normalize_series_minmax]
    by_cases hroll : useRolling window = true
    · rw [if_pos hroll]
      have hw : 1 ≤ window.getD 1 := by
        cases window with
        | none => simp [useRolling] at hroll
        | some w =>
          simp only [useRolling, ne_eq, bne_iff_ne] at hroll
          simp only [Option.getD_some]
          omega
      congr 1
      rw [List.eq_replicate_iff]
      constructor
      · simp [normalizeRolling]
      · intro b hb
        simp only [normalizeRolling, List.length_replicate, List.mem_map,
          List.mem_range] at hb
        obtain ⟨i, hi, hb⟩ := hb
        rw [rollWindow_replicate] at hb
        have hk : 0 < min (i + 1) n - (i + 1 - window.getD 1) := by omega
        rw [seriesMin_replicate _ c hk, seriesMax_replicate _ c hk] at hb
        have hgd : (List.replicate n c).getD i 0 = c := by
          rw [List.getD_eq_getElem _ _ (by simpa using hi)]
          simp
        rw [hgd, sub_self] at hb
        simpa [replaceZeroOne] using hb.symm
    · rw [if_neg hroll]
      have hmap : normalizeGlobal (List.replicate n c) =
          List.replicate n (normElem (List.replicate n c) c) := by
        unfold normalizeGlobal
        exact List.map_replicate
      rw [hmap, normElem_replicate_self n c hn]
  · rw [normalize_series_percentile]
    congr 1
    unfold rankPct
    rw [List.map_replicate]
    congr 1
    have hlt : (List.replicate n c).filter (fun y => decide (y < c)) = [] := by
      simp [List.filter_replicate]
    have heq : (List.replicate n c).filter (fun y => decide (y = c)) = List.replicate n c := by
      simp [List.filter_replicate]
    rw [hlt, heq]
    simp only [List.length_nil, List.length_replicate, Nat.cast_zero, zero_add]
    rw [div_div]

/-- C6 witness: instantiated at the constant series [5, 5] with window 3. -/
theorem C6_constant_series_witness :
    (0 : ℕ) < 2 ∧
    (normalize_series (List.replicate 2 (5 : ℚ)) "minmax" (some 3) =
        .ok (List.replicate 2 0) ∧
      normalize_series (List.replicate 2 (5 : ℚ)) "percentile" (some 3) =
        .ok (List.replicate 2 (((2 : ℚ) + 1) / (2 * 2)))) :=
  ⟨by norm_num, C6_constant_series 5 2 (some 3) (by norm_num)⟩

/-- C3 counterexample: the claim extends the zero-fill of demand columns to
the join stage "wherever it is performed", but the join inside
`calculate_all_imbalance_metrics` applies no fill: with one Kueue row keyed
1 and one nodepool row keyed 0, the joined row for key 0 (which the claim
says must carry zero demand values) keeps `pending_workloads` missing. -/
theorem C3_counterexample :
    (imbalanceJoin [KueueRow.mk 1 5 30 2 4 0] [NodepoolRow.mk 0 8 8]
        ([] : List (DcgmRow ℕ))).map (·.pending_workloads) = [some 5, none] ∧
    (imbalanceJoin [KueueRow.mk 1 5 30 2 4 0] [NodepoolRow.mk 0 8 8]
        ([] : List (DcgmRow ℕ))).map (·.capacity_gpu_count) = [none, some 8] ∧
    (none : Option ℚ) ≠ some 0 := by
  refine ⟨?_, ?_, by simp⟩
  · simp [imbalanceJoin, unifiedKeys, imbalanceJoinRowAt, kueueAggImbalance, List.dedup]
  · simp [imbalanceJoin, unifiedKeys, imbalanceJoinRowAt, nodepoolAggAt, qmean, List.dedup]
    try norm_num

/-- C3 (amended): in `build_unified_model`, every row of the full outer join
has its four demand-side columns equal to zero (not missing) when its key
had no demand rows, and all efficiency-side columns missing when its group
produced no GPU telemetry in the bucket; the join stage inside
`calculate_all_imbalance_metrics`, however, performs no such zero-fill. -/
theorem C3_unified_join_missingness {K : Type} [DecidableEq K]
    (kueue : List (KueueRow K)) (nodepool : List (NodepoolRow K))
    (dcgm : List (DcgmRow K)) (r : UnifiedRow)
    (hr : r ∈ build_unified_model kueue nodepool dcgm) :
    ∃ k, r = fillDemand (unifiedRowAt kueue nodepool dcgm k) ∧
      (kueue.filter (fun x => x.key = k) = [] →
        r.pending_workloads = some 0 ∧
        r.admission_wait_time_seconds = some 0 ∧
        r.admitted_active_workloads = some 0 ∧
        r.resource_usage = some 0) ∧
      (dcgm.filter (fun x => x.key = k) = [] →
        r.gpu_utilization_pct = none ∧ r.power_usage_watts = none ∧
        r.power_intensity_factor = none ∧ r.rfu_pct = none ∧
        r.efficiency_gap = none ∧ r.memory_used_mb = none ∧
        r.gpu_temp_celsius = none ∧ r.tensor_active_pct = none) := by
  obtain ⟨k, hk, hkr⟩ := List.mem_map.mp hr
  refine ⟨k, hkr.symm, ?_, ?_⟩
  · intro hempty
    have hagg : kueueAggUnified kueue k = none := by
      simp [kueueAggUnified, hempty]
    rw [← hkr]
    simp [fillDemand, unifiedRowAt, hagg]
  · intro hempty
    have hagg : dcgmAggUnified dcgm k = none := by
      simp [dcgmAggUnified, hempty]
    rw [← hkr]
    simp [fillDemand, unifiedRowAt, hagg]

/-- C3 witness: the unified model built from no Kueue rows, one nodepool row
keyed 0, and no DCGM rows has its single row zero-filled on the demand side
and missing on the efficiency side. -/
theorem C3_unified_join_missingness_witness :
    (fillDemand (unifiedRowAt ([] : List (KueueRow ℕ)) [NodepoolRow.mk 0 8 8] [] 0) ∈
      build_unified_model ([] : List (KueueRow ℕ)) [NodepoolRow.mk 0 8 8] []) ∧
    (∃ k, fillDemand (unifiedRowAt ([] : List (KueueRow ℕ)) [NodepoolRow.mk 0 8 8] [] 0) =
        fillDemand (unifiedRowAt ([] : List (KueueRow ℕ)) [NodepoolRow.mk 0 8 8] [] k) ∧
      (([] : List (KueueRow ℕ)).filter (fun x => x.key = k) = [] →
        (fillDemand (unifiedRowAt ([] : List (KueueRow ℕ))
          [NodepoolRow.mk 0 8 8] [] 0)).pending_workloads = some 0 ∧
        (fillDemand (unifiedRowAt ([] : List (KueueRow ℕ))
          [NodepoolRow.mk 0 8 8] [] 0)).admission_wait_time_seconds = some 0 ∧
        (fillDemand (unifiedRowAt ([] : List (KueueRow ℕ))
          [NodepoolRow.mk 0 8 8] [] 0)).admitted_active_workloads = some 0 ∧
        (fillDemand (unifiedRowAt ([] : List (KueueRow ℕ))
          [NodepoolRow.mk 0 8 8] [] 0)).resource_usage = some 0) ∧
      (([] : List (DcgmRow ℕ)).filter (fun x => x.key = k) = [] →
        (fillDemand (unifiedRowAt ([] : List (KueueRow ℕ))
          [NodepoolRow.mk 0 8 8] [] 0)).gpu_utilization_pct = none ∧
        (fillDemand (unifiedRowAt ([] : List (KueueRow ℕ))
          [NodepoolRow.mk 0 8 8] [] 0)).power_usage_watts = none ∧
        (fillDemand (unifiedRowAt ([] : List (KueueRow ℕ))
          [NodepoolRow.mk 0 8 8] [] 0)).power_intensity_factor = none ∧
        (fillDemand (unifiedRowAt ([] : List (KueueRow ℕ))
          [NodepoolRow.mk 0 8 8] [] 0)).rfu_pct = none ∧
        (fillDemand (unifiedRowAt ([] : List (KueueRow ℕ))
          [NodepoolRow.mk 0 8 8] [] 0)).efficiency_gap = none ∧
        (fillDemand (unifiedRowAt ([] : List (KueueRow ℕ))
          [NodepoolRow.mk 0 8 8] [] 0)).memory_used_mb = none ∧
        (fillDemand (unifiedRowAt ([] : List (KueueRow ℕ))
          [NodepoolRow.mk 0 8 8] [] 0)).gpu_temp_celsius = none ∧
        (fillDemand (unifiedRowAt ([] : List (KueueRow ℕ))
          [NodepoolRow.mk 0 8 8] [] 0)).tensor_active_pct = none)) := by
  have heq : build_unified_model ([] : List (KueueRow ℕ)) [NodepoolRow.mk 0 8 8] [] =
      [fillDemand (unifiedRowAt ([] : List (KueueRow ℕ)) [NodepoolRow.mk 0 8 8] [] 0)] := rfl
  have hmem : fillDemand (unifiedRowAt ([] : List (KueueRow ℕ)) [NodepoolRow.mk 0 8 8] [] 0) ∈
      build_unified_model ([] : List (KueueRow ℕ)) [NodepoolRow.mk 0 8 8] [] := by
    rw [heq]
    exact List.mem_singleton_self _
  exact ⟨hmem, C3_unified_join_missingness _ _ _ _ hmem⟩

theorem validate_nodepool_iff (df : NodepoolDF) :
    errs (validate_nodepool_data df) = true ↔ nodepoolViolation df := by
  unfold validate_nodepool_data checkRequiredColumns checkTimestamps nodepoolViolation
  split_ifs with h1 h2 h3 h4 h5 h6 <;>
    simp_all [errs, List.all_eq_true, List.any_eq_true, List.any_map, List.elem_iff]

theorem validate_kueue_iff (df : KueueDF) :
    errs (validate_kueue_data df) = true ↔ kueueViolation df := by
  unfold validate_kueue_data checkRequiredColumns checkTimestamps kueueViolation
  split_ifs with h1 h2 h3 h4 h5 h6 h7 <;>
    simp_all [errs, List.all_eq_true, List.any_eq_true, List.any_map, List.elem_iff]

set_option maxHeartbeats 2000000 in
theorem validate_dcgm_iff (df : DcgmDF) :
    errs (validate_dcgm_data df) = true ↔ dcgmViolation df := by
  unfold validate_dcgm_data checkRequiredColumns checkTimestamps dcgmViolation
  split_ifs with h1 h2 h3 h4 h5 h6 h7 h8 h9 <;>
    simp_all [errs, List.all_eq_true, List.any_eq_true, List.any_map, List.elem_iff]

theorem pipelineDcgm_fail_fast (df : DcgmDF) (model : String)
    (h : errs (validate_dcgm_data df) = true) :
    ∃ e, pipelineDcgm df model = Except.error e := by
  unfold pipelineDcgm
  cases hv : validate_dcgm_data df with
  | error e => exact ⟨e, rfl⟩
  | ok u => rw [hv] at h; simp [errs] at h

theorem pipelineKueue_fail_fast (df : KueueDF)
    (h : errs (validate_kueue_data df) = true) :
    ∃ e, pipelineKueue df = Except.error e := by
  unfold pipelineKueue
  cases hv : validate_kueue_data df with
  | error e => exact ⟨e, rfl⟩
  | ok u => rw [hv] at h; simp [errs] at h

theorem pipelineNodepool_fail_fast (df : NodepoolDF)
    (h : errs (validate_nodepool_data df) = true) :
    ∃ e, pipelineNodepool df = Except.error e := by
  unfold pipelineNodepool
  cases hv : validate_nodepool_data df with
  | error e => exact ⟨e, rfl⟩
  | ok u => rw [hv] at h; simp [errs] at h

/-- C9: each validator raises a ValidationError if and only if its table
violates one of its checks (missing required column, negative value,
utilization/percentage outside [0, 100], temperature outside [0, 120],
allocatable exceeding capacity, null timestamp, unparseable timestamp), and
for every one of the three raw tables a raised error aborts that table's
processing before any metric is derived from it, producing no partial
output. -/
theorem C9_validators_fail_fast :
    (∀ df : NodepoolDF, errs (validate_nodepool_data df) = true ↔ nodepoolViolation df) ∧
    (∀ df : KueueDF, errs (validate_kueue_data df) = true ↔ kueueViolation df) ∧
    (∀ df : DcgmDF, errs (validate_dcgm_data df) = true ↔ dcgmViolation df) ∧
    (∀ df : NodepoolDF, errs (validate_nodepool_data df) = true →
      ∃ e, pipelineNodepool df = Except.error e) ∧
    (∀ df : KueueDF, errs (validate_kueue_data df) = true →
      ∃ e, pipelineKueue df = Except.error e) ∧
    (∀ (df : DcgmDF) (model : String), errs (validate_dcgm_data df) = true →
      ∃ e, pipelineDcgm df model = Except.error e) :=
  ⟨validate_nodepool_iff, validate_kueue_iff, validate_dcgm_iff,
    pipelineNodepool_fail_fast, pipelineKueue_fail_fast, pipelineDcgm_fail_fast⟩

/-- C9 witness: a nodepool, kueue and dcgm table each missing all required
columns fail validation, and each pipeline produces an error instead of any
derived metric. -/
theorem C9_validators_fail_fast_witness :
    errs (validate_nodepool_data (NodepoolDF.mk [] [])) = true ∧
    errs (validate_kueue_data (KueueDF.mk [] [])) = true ∧
    errs (validate_dcgm_data (DcgmDF.mk [] [])) = true ∧
    (∃ e, pipelineNodepool (NodepoolDF.mk [] []) = Except.error e) ∧
    (∃ e, pipelineKueue (KueueDF.mk [] []) = Except.error e) ∧
    (∃ e, pipelineDcgm (DcgmDF.mk [] []) "NVIDIA A10G" = Except.error e) := by
  have hn : errs (validate_nodepool_data (NodepoolDF.mk [] [])) = true := rfl
  have hk : errs (validate_kueue_data (KueueDF.mk [] [])) = true := rfl
  have hd : errs (validate_dcgm_data (DcgmDF.mk [] [])) = true := rfl
  exact ⟨hn, hk, hd,
    C9_validators_fail_fast.2.2.2.1 (NodepoolDF.mk [] []) hn,
    C9_validators_fail_fast.2.2.2.2.1 (KueueDF.mk [] []) hk,
    C9_validators_fail_fast.2.2.2.2.2 (DcgmDF.mk [] []) "NVIDIA A10G" hd⟩

/-- C10: `add_efficiency_metrics` with `inplace=False` returns a table
carrying the six derived columns with their derived values, leaves every
other column of the result exactly as in the input, and leaves the argument
table itself completely unchanged (the mutations apply to a copy). -/
theorem C10_add_efficiency_frame (df : DataFrame)
    (power : List ℚ) (model : List String) (util used free : List ℚ)
    (h1 : getNums df "power_usage_watts" = some power)
    (h2 : getStrs df "gpu_model" = some model)
    (h3 : getNums df "gpu_utilization_pct" = some util)
    (h4 : getNums df "memory_used_mb" = some used)
    (h5 : getNums df "memory_free_mb" = some free) :
    ∃ out, add_efficiency_metrics df false = some (out, df) ∧
      (∀ c, c ∉ derivedNames → getCol out c = getCol df c) ∧
      getCol out "power_intensity_factor" = some ((pifSeries power model).map Cell.num) ∧
      getCol out "realized_tflops" = some ((realizedSeries power model).map Cell.num) ∧
      getCol out "rfu_pct" = some ((rfuSeries power model).map Cell.num) ∧
      getCol out "efficiency_gap" = some ((gapSeries util power model).map Cell.num) ∧
      getCol out "memory_pressure_pct" = some ((memSeries used free).map Cell.num) ∧
      getCol out "efficiency_class" = some ((clsSeries util power model).map Cell.str) := by
  refine ⟨setCol (setCol (setCol (setCol (setCol (setCol df
    "power_intensity_factor" ((pifSeries power model).map Cell.num))
    "realized_tflops" ((realizedSeries power model).map Cell.num))
    "rfu_pct" ((rfuSeries power model).map Cell.num))
    "efficiency_gap" ((gapSeries util power model).map Cell.num))
    "memory_pressure_pct" ((memSeries used free).map Cell.num))
    "efficiency_class" ((clsSeries util power model).map Cell.str), ?_, ?_, ?_, ?_, ?_, ?_, ?_, ?_⟩
  · unfold add_efficiency_metrics
    rw [h1, h2, h3, h4, h5]
    rfl
  · intro c hc
    simp only [derivedNames, List.mem_cons, List.not_mem_nil, or_false, not_or] at hc
    obtain ⟨hc1, hc2, hc3, hc4, hc5, hc6⟩ := hc
    rw [getCol_setCol_ne _ _ _ _ (Ne.symm hc6), getCol_setCol_ne _ _ _ _ (Ne.symm hc5),
      getCol_setCol_ne _ _ _ _ (Ne.symm hc4), getCol_setCol_ne _ _ _ _ (Ne.symm hc3),
      getCol_setCol_ne _ _ _ _ (Ne.symm hc2), getCol_setCol_ne _ _ _ _ (Ne.symm hc1)]
  · rw [getCol_setCol_ne _ _ _ _ (by decide), getCol_setCol_ne _ _ _ _ (by decide),
      getCol_setCol_ne _ _ _ _ (by decide), getCol_setCol_ne _ _ _ _ (by decide),
      getCol_setCol_ne _ _ _ _ (by decide), getCol_setCol_self]
  · rw [getCol_setCol_ne _ _ _ _ (by decide), getCol_setCol_ne _ _ _ _ (by decide),
      getCol_setCol_ne _ _ _ _ (by decide), getCol_setCol_ne _ _ _ _ (by decide),
      getCol_setCol_self]
  · rw [getCol_setCol_ne _ _ _ _ (by decide), getCol_setCol_ne _ _ _ _ (by decide),
      getCol_setCol_ne _ _ _ _ (by decide), getCol_setCol_self]
  · rw [getCol_setCol_ne _ _ _ _ (by decide), getCol_setCol_ne _ _ _ _ (by decide),
      getCol_setCol_self]
  · rw [getCol_setCol_ne _ _ _ _ (by decide), getCol_setCol_self]
  · rw [getCol_setCol_self]

/-- C10 witness: instantiated at a concrete one-row frame. -/
theorem C10_add_efficiency_frame_witness :
    getNums sampleDcgmFrame "power_usage_watts" = some [400] ∧
    getStrs sampleDcgmFrame "gpu_model" = some ["NVIDIA A100-SXM4-40GB"] ∧
    getNums sampleDcgmFrame "gpu_utilization_pct" = some [80] ∧
    getNums sampleDcgmFrame "memory_used_mb" = some [10] ∧
    getNums sampleDcgmFrame "memory_free_mb" = some [30] ∧
    (∃ out, add_efficiency_metrics sampleDcgmFrame false = some (out, sampleDcgmFrame) ∧
      (∀ c, c ∉ derivedNames → getCol out c = getCol sampleDcgmFrame c) ∧
      getCol out "power_intensity_factor" =
        some ((pifSeries [400] ["NVIDIA A100-SXM4-40GB"]).map Cell.num) ∧
      getCol out "realized_tflops" =
        some ((realizedSeries [400] ["NVIDIA A100-SXM4-40GB"]).map Cell.num) ∧
      getCol out "rfu_pct" =
        some ((rfuSeries [400] ["NVIDIA A100-SXM4-40GB"]).map Cell.num) ∧
      getCol out "efficiency_gap" =
        some ((gapSeries [80] [400] ["NVIDIA A100-SXM4-40GB"]).map Cell.num) ∧
      getCol out "memory_pressure_pct" =
        some ((memSeries [10] [30]).map Cell.num) ∧
      getCol out "efficiency_class" =
        some ((clsSeries [80] [400] ["NVIDIA A100-SXM4-40GB"]).map Cell.str)) :=
  ⟨rfl, rfl, rfl, rfl, rfl,
    C10_add_efficiency_frame sampleDcgmFrame [400] ["NVIDIA A100-SXM4-40GB"] [80] [10] [30]
      rfl rfl rfl rfl rfl⟩

end GpuAnalytics
